import Mathlib

/-!
Verification of the learning-rate schedule and weight-decay optimizer of
DLFrameworkBench (bert-squad). The embedded code is
src/bert-squad/tensorflow2.6/src/optimizer.py; floating-point values are
modelled as exact rationals and framework tensors as scalars.
-/

namespace DLFrameworkBench

/-- Does the pattern occur at the head of the character list? -/
def occurs_at_start : List Char → List Char → Bool
  | [], _ => true
  | _ :: _, [] => false
  | c :: cs, d :: ds => c == d && occurs_at_start cs ds

/-- Does the pattern occur anywhere in the character list? -/
def re_search_chars (pat : List Char) : List Char → Bool
  | [] => occurs_at_start pat []
  | c :: cs => occurs_at_start pat (c :: cs) || re_search_chars pat cs

/-- Model of the truth value of Python re.search(r, s) is not None, for
metacharacter-free patterns r (the only kind of pattern the repository uses,
such as "bias"): a substring test. -/
def re_search (r s : String) : Bool :=
  re_search_chars r.toList s.toList

/-- Embedding of the WarmUp learning-rate schedule class
(optimizer.py lines 5-35).  decay_schedule_fn is the wrapped decay
schedule; power is a natural number because every use in the source sets
it to its default 1.0. -/
structure WarmUp where
  initial_learning_rate : ℚ
  decay_schedule_fn : ℕ → ℚ
  warmup_steps : ℕ
  power : ℕ := 1

/-- The warmup_learning_rate expression of WarmUp.__call__ (lines 28-31):
initial_learning_rate * (step / warmup_steps) ^ power. -/
def WarmUp.warmup_learning_rate (wu : WarmUp) (step : ℕ) : ℚ :=
  wu.initial_learning_rate * ((step : ℚ) / (wu.warmup_steps : ℚ)) ^ wu.power

/-- WarmUp.__call__ (lines 22-35): below warmup_steps return the warm-up
ramp, otherwise defer to decay_schedule_fn. -/
def WarmUp.call (wu : WarmUp) (step : ℕ) : ℚ :=
  if (step : ℚ) < (wu.warmup_steps : ℚ) then wu.warmup_learning_rate step
  else wu.decay_schedule_fn step

/-- Embedding of tf.keras.optimizers.schedules.PolynomialDecay with
cycle=False, as instantiated in create_optimizer (lines 58-62). -/
structure PolynomialDecay where
  initial_learning_rate : ℚ
  decay_steps : ℕ
  end_learning_rate : ℚ
  power : ℕ

/-- PolynomialDecay evaluation (TensorFlow semantics, cycle=False):
clamp the step to decay_steps and interpolate. -/
def PolynomialDecay.call (d : PolynomialDecay) (step : ℕ) : ℚ :=
  let global_step_recomp : ℕ := min step d.decay_steps
  let p : ℚ := (global_step_recomp : ℚ) / (d.decay_steps : ℚ)
  (d.initial_learning_rate - d.end_learning_rate) * (1 - p) ^ d.power +
    d.end_learning_rate

/-- decayed_learning_rate_at_crossover_point of create_optimizer
(lines 51-52): init_lr * (1 - num_warmup_steps/num_train_steps) ^ power
with power = 1. -/
def decayed_lr_at_crossover (init_lr : ℚ) (num_train_steps num_warmup_steps : ℕ) : ℚ :=
  init_lr * (1 - (num_warmup_steps : ℚ) / (num_train_steps : ℚ)) ^ 1

/-- The adjusted init_lr of create_optimizer (line 55):
init_lr * (init_lr / decayed_learning_rate_at_crossover_point). -/
def adjusted_init_lr (init_lr : ℚ) (num_train_steps num_warmup_steps : ℕ) : ℚ :=
  init_lr * (init_lr / decayed_lr_at_crossover init_lr num_train_steps num_warmup_steps)

/-- The PolynomialDecay schedule built by create_optimizer (lines 58-62)
from the adjusted init_lr, with end_learning_rate 0 and power 1. -/
def create_optimizer_decay_fn (init_lr : ℚ) (num_train_steps num_warmup_steps : ℕ) :
    ℕ → ℚ :=
  PolynomialDecay.call
    ⟨adjusted_init_lr init_lr num_train_steps num_warmup_steps, num_train_steps, 0, 1⟩

/-- The WarmUp object built by create_optimizer (lines 63-66) when
num_warmup_steps is nonzero. -/
def create_optimizer_warmup (init_lr : ℚ) (num_train_steps num_warmup_steps : ℕ) :
    WarmUp :=
  ⟨adjusted_init_lr init_lr num_train_steps num_warmup_steps,
    create_optimizer_decay_fn init_lr num_train_steps num_warmup_steps,
    num_warmup_steps, 1⟩

/-- The learning-rate schedule returned by create_optimizer (lines 49-66):
the WarmUp-wrapped decay when num_warmup_steps is truthy (nonzero), the
bare PolynomialDecay otherwise. -/
def create_optimizer_lr_fn (init_lr : ℚ) (num_train_steps num_warmup_steps : ℕ) :
    ℕ → ℚ :=
  if num_warmup_steps ≠ 0 then
    (create_optimizer_warmup init_lr num_train_steps num_warmup_steps).call
  else create_optimizer_decay_fn init_lr num_train_steps num_warmup_steps

/-- Embedding of the AdamWeightDecay optimizer's own state (optimizer.py
lines 76-101): the configuration fields of the superclass
tf.keras.optimizers.Adam that its get_config serializes, plus the three
fields AdamWeightDecay.__init__ adds.  learning_rate is the schedule
function passed by create_optimizer. -/
structure AdamWeightDecay where
  learning_rate : ℕ → ℚ
  beta_1 : ℚ
  beta_2 : ℚ
  epsilon : ℚ
  amsgrad : Bool
  name : String
  weight_decay_rate : ℚ
  include_in_weight_decay : Option (List String)
  exclude_from_weight_decay : Option (List String)

/-- Truthiness-respecting match of a Python pattern-list option against a
name: None and the empty list match nothing, mirroring the
"if self._include_in_weight_decay:" guards of _do_use_weight_decay. -/
def matches_any (pats : Option (List String)) (param_name : String) : Bool :=
  (pats.getD []).any fun r => re_search r param_name

/-- AdamWeightDecay._do_use_weight_decay (lines 159-173): False when
weight_decay_rate is 0; True when the name matches an inclusion pattern;
False when it matches an exclusion pattern; True otherwise. -/
def AdamWeightDecay.do_use_weight_decay (opt : AdamWeightDecay) (param_name : String) :
    Bool :=
  if opt.weight_decay_rate = 0 then false
  else if matches_any opt.include_in_weight_decay param_name then true
  else if matches_any opt.exclude_from_weight_decay param_name then false
  else true

/-- AdamWeightDecay._decay_weights_op (lines 116-123): when decay applies,
assign_sub of learning_rate * var * weight_decay_rate; the result is the new
value of the variable (tf.no_op leaves it unchanged). -/
def AdamWeightDecay.decay_weights_op (opt : AdamWeightDecay) (param_name : String)
    (var learning_rate : ℚ) : ℚ :=
  if opt.do_use_weight_decay param_name then
    var - learning_rate * var * opt.weight_decay_rate
  else var

/-- AdamWeightDecay._resource_apply_dense (lines 138-143): run the decay op
on the variable, then the superclass Adam dense update on the decayed value.
The Adam moment-based kernel is framework code external to the repository,
so it is passed in as an arbitrary update function adam_dense of the
variable value (gradient and moment state held fixed). -/
def AdamWeightDecay.resource_apply_dense (opt : AdamWeightDecay) (adam_dense : ℚ → ℚ)
    (param_name : String) (lr_t var : ℚ) : ℚ :=
  adam_dense (opt.decay_weights_op param_name var lr_t)

/-- The configuration dictionary produced by AdamWeightDecay.get_config
(lines 152-157): the superclass Adam fields plus weight_decay_rate.  The
include and exclusion lists are not part of it. -/
structure AdamWeightDecayConfig where
  learning_rate : ℕ → ℚ
  beta_1 : ℚ
  beta_2 : ℚ
  epsilon : ℚ
  amsgrad : Bool
  name : String
  weight_decay_rate : ℚ

/-- AdamWeightDecay.get_config (lines 152-157). -/
def AdamWeightDecay.get_config (opt : AdamWeightDecay) : AdamWeightDecayConfig :=
  ⟨opt.learning_rate, opt.beta_1, opt.beta_2, opt.epsilon, opt.amsgrad, opt.name,
    opt.weight_decay_rate⟩

/-- AdamWeightDecay.from_config (lines 103-108): rebuilds the optimizer from
a config.  The config carries no inclusion or exclusion lists, so the
rebuilt optimizer gets the __init__ defaults None for both. -/
def AdamWeightDecay.from_config (config : AdamWeightDecayConfig) : AdamWeightDecay :=
  ⟨config.learning_rate, config.beta_1, config.beta_2, config.epsilon, config.amsgrad,
    config.name, config.weight_decay_rate, none, none⟩

/-- The exceptions create_optimizer can raise: NotImplementedError at lines
54 and 72, and Python ZeroDivisionError from the two float divisions at
lines 52 and 55. -/
inductive PyError where
  | NotImplementedError : PyError
  | ZeroDivisionError : PyError
deriving DecidableEq

/-- create_optimizer (lines 46-73).  Rational division is total, so the two
Python float divisions (by num_train_steps at line 52 and by
decayed_learning_rate_at_crossover_point at line 55) are guarded explicitly
and raise ZeroDivisionError exactly when Python would.  The extra optimizer
arguments beyond the schedule come from kwargs. -/
def create_optimizer (init_lr : ℚ) (num_train_steps num_warmup_steps : ℕ)
    (optimizer_type : String) (weight_decay_rate : ℚ)
    (incl excl : Option (List String)) : Except PyError AdamWeightDecay := do
  if optimizer_type = "adam" then
    if (num_train_steps : ℚ) = 0 then throw .ZeroDivisionError
    pure ()
  else throw .NotImplementedError
  if decayed_lr_at_crossover init_lr num_train_steps num_warmup_steps = 0 then
    throw .ZeroDivisionError
  let learning_rate_fn := create_optimizer_lr_fn init_lr num_train_steps num_warmup_steps
  if optimizer_type = "adam" then
    pure ⟨learning_rate_fn, 9/10, 999/1000, 1/10000000, false, "AdamWeightDecay",
      weight_decay_rate, incl, excl⟩
  else throw .NotImplementedError

/-- The divisors evaluated when the schedule of create_optimizer is built
and then evaluated at some step: num_train_steps (line 52),
decayed_learning_rate_at_crossover_point (line 55), decay_steps =
num_train_steps inside PolynomialDecay, and warmup_steps =
num_warmup_steps inside WarmUp.__call__ (line 28) when the WarmUp wrapper
is built (num_warmup_steps truthy). -/
def schedule_divisors (init_lr : ℚ) (num_train_steps num_warmup_steps : ℕ) : List ℚ :=
  [(num_train_steps : ℚ),
   decayed_lr_at_crossover init_lr num_train_steps num_warmup_steps,
   (num_train_steps : ℚ)] ++
  (if num_warmup_steps ≠ 0 then [(num_warmup_steps : ℚ)] else [])

/-- No division by zero happens while building and evaluating the schedule. -/
def no_div_by_zero (init_lr : ℚ) (num_train_steps num_warmup_steps : ℕ) : Prop :=
  (0 : ℚ) ∉ schedule_divisors init_lr num_train_steps num_warmup_steps

instance (init_lr : ℚ) (n w : ℕ) : Decidable (no_div_by_zero init_lr n w) := by
  unfold no_div_by_zero; infer_instance

/-! Helper lemmas about the schedule. -/

/-- Below the warm-up count the schedule returns the ramp branch. -/
lemma WarmUp.call_of_lt (wu : WarmUp) (step : ℕ) (h : step < wu.warmup_steps) :
    wu.call step = wu.warmup_learning_rate step := by
  unfold WarmUp.call
  rw [if_pos]
  exact_mod_cast h

/-- From the warm-up count on the schedule returns the decay branch. -/
lemma WarmUp.call_of_le (wu : WarmUp) (step : ℕ) (h : wu.warmup_steps ≤ step) :
    wu.call step = wu.decay_schedule_fn step := by
  unfold WarmUp.call
  rw [if_neg]
  exact not_lt.2 (by exact_mod_cast h)

/-- Linear PolynomialDecay with end rate 0 evaluates to a clamped linear
interpolation. -/
lemma PolynomialDecay.call_linear (c : ℚ) (n step : ℕ) :
    PolynomialDecay.call ⟨c, n, 0, 1⟩ step = c * (1 - ((min step n : ℕ) : ℚ) / (n : ℚ)) := by
  unfold PolynomialDecay.call
  simp

/-- The adjusted initial rate of create_optimizer collapses to
init_lr / (1 - warmup/total). -/
lemma adjusted_init_lr_eq (init_lr : ℚ) (n w : ℕ) :
    adjusted_init_lr init_lr n w = init_lr / (1 - (w : ℚ) / (n : ℚ)) := by
  unfold adjusted_init_lr decayed_lr_at_crossover
  rw [pow_one]
  rcases eq_or_ne init_lr 0 with h | h
  · simp [h]
  · rcases eq_or_ne ((1 : ℚ) - (w : ℚ) / (n : ℚ)) 0 with hq | hq
    · simp [hq]
    · field_simp
      ring

/-! Example instances used by witnesses and counterexamples. -/

/-- A concrete WarmUp schedule: peak 1/1000, ten warm-up steps, zero decay. -/
def warmup_example : WarmUp := ⟨1/1000, fun _ => 0, 10, 1⟩

/-- A concrete AdamWeightDecay optimizer with decay rate 1, inclusion
pattern "kernel" and exclusion patterns "bias" and "LayerNorm". -/
def adam_example : AdamWeightDecay :=
  ⟨fun _ => 1/1000, 9/10, 999/1000, 1/10000000, false, "AdamWeightDecay", 1,
    some ["kernel"], some ["bias", "LayerNorm"]⟩

/-- A concrete AdamWeightDecay optimizer with decay rate 0 and an inclusion
pattern. -/
def adam_zero_rate_example : AdamWeightDecay :=
  ⟨fun _ => 1/1000, 9/10, 999/1000, 1/10000000, false, "AdamWeightDecay", 0,
    some ["kernel"], some ["bias"]⟩

/-! Claims. -/

/-- C1: for every step strictly below a nonzero warm-up step count, the
WarmUp schedule (power at its default 1, nonnegative peak rate) returns
peak_rate * step / warmup_steps, and over that range the returned value is
monotonically non-decreasing in the step. -/
theorem C1_warmup_linear_ramp (wu : WarmUp) (hw : wu.warmup_steps ≠ 0)
    (hp : wu.power = 1) (hlr : 0 ≤ wu.initial_learning_rate) :
    (∀ step : ℕ, step < wu.warmup_steps →
      wu.call step = wu.initial_learning_rate * (step : ℚ) / (wu.warmup_steps : ℚ)) ∧
    (∀ s₁ s₂ : ℕ, s₁ ≤ s₂ → s₂ < wu.warmup_steps → wu.call s₁ ≤ wu.call s₂) := by
  have hval : ∀ step : ℕ, step < wu.warmup_steps →
      wu.call step = wu.initial_learning_rate * (step : ℚ) / (wu.warmup_steps : ℚ) := by
    intro step hstep
    rw [wu.call_of_lt step hstep]
    unfold WarmUp.warmup_learning_rate
    rw [hp, pow_one, mul_div_assoc]
  refine ⟨hval, fun s₁ s₂ h12 h2 => ?_⟩
  rw [hval s₁ (lt_of_le_of_lt h12 h2), hval s₂ h2]
  have hwpos : (0 : ℚ) < (wu.warmup_steps : ℚ) := by
    exact_mod_cast Nat.pos_of_ne_zero hw
  gcongr

/-- C1 witness: the theorem evaluated on the concrete WarmUp example. -/
theorem C1_warmup_linear_ramp_witness :
    warmup_example.call 5 =
      warmup_example.initial_learning_rate * ((5 : ℕ) : ℚ) /
        (warmup_example.warmup_steps : ℚ) ∧
    warmup_example.call 3 ≤ warmup_example.call 7 :=
  ⟨(C1_warmup_linear_ramp warmup_example (by decide) rfl
      (by norm_num [warmup_example])).1 5 (by decide),
   (C1_warmup_linear_ramp warmup_example (by decide) rfl
      (by norm_num [warmup_example])).2 3 7 (by decide) (by decide)⟩

/-- C4: the decay amount one decay op subtracts from a variable is 0 when
the parameter name matches an exclusion pattern and no inclusion pattern;
it is lr * decay_rate * value when the name matches an inclusion pattern
(inclusion overriding exclusion), and likewise when the name matches
neither list. -/
theorem C4_decay_eligibility (opt : AdamWeightDecay) (param_name : String)
    (var lr : ℚ) :
    (matches_any opt.exclude_from_weight_decay param_name = true →
      matches_any opt.include_in_weight_decay param_name = false →
      var - opt.decay_weights_op param_name var lr = 0) ∧
    (matches_any opt.include_in_weight_decay param_name = true →
      var - opt.decay_weights_op param_name var lr =
        lr * opt.weight_decay_rate * var) ∧
    (matches_any opt.exclude_from_weight_decay param_name = false →
      matches_any opt.include_in_weight_decay param_name = false →
      var - opt.decay_weights_op param_name var lr =
        lr * opt.weight_decay_rate * var) := by
  refine ⟨fun hex hin => ?_, fun hin => ?_, fun hex hin => ?_⟩
  · rcases eq_or_ne opt.weight_decay_rate 0 with h0 | h0 <;>
      simp [AdamWeightDecay.decay_weights_op, AdamWeightDecay.do_use_weight_decay,
        h0, hex, hin]
  · rcases eq_or_ne opt.weight_decay_rate 0 with h0 | h0
    · simp [AdamWeightDecay.decay_weights_op, AdamWeightDecay.do_use_weight_decay,
        h0, hin]
    · simp [AdamWeightDecay.decay_weights_op, AdamWeightDecay.do_use_weight_decay,
        h0, hin]
      ring
  · rcases eq_or_ne opt.weight_decay_rate 0 with h0 | h0
    · simp [AdamWeightDecay.decay_weights_op, AdamWeightDecay.do_use_weight_decay,
        h0, hex, hin]
    · simp [AdamWeightDecay.decay_weights_op, AdamWeightDecay.do_use_weight_decay,
        h0, hex, hin]
      ring

/-- C4 witness: on the concrete optimizer, an excluded name gets decay 0 and
an included name gets decay lr * rate * value. -/
theorem C4_decay_eligibility_witness :
    ((2 : ℚ) - adam_example.decay_weights_op "encoder.bias" 2 (1/10) = 0) ∧
    ((2 : ℚ) - adam_example.decay_weights_op "encoder.kernel" 2 (1/10) =
      (1/10) * adam_example.weight_decay_rate * 2) :=
  ⟨(C4_decay_eligibility adam_example "encoder.bias" 2 (1/10)).1
      (by decide) (by decide),
   (C4_decay_eligibility adam_example "encoder.kernel" 2 (1/10)).2.1 (by decide)⟩

/-- C5: on a decay-eligible parameter one dense optimizer step first
subtracts lr * decay_rate * value from the variable and only then runs the
Adam moment-based dense update on the decayed value. -/
theorem C5_decay_before_adam (opt : AdamWeightDecay) (adam_dense : ℚ → ℚ)
    (param_name : String) (lr_t var : ℚ)
    (h : opt.do_use_weight_decay param_name = true) :
    opt.resource_apply_dense adam_dense param_name lr_t var =
      adam_dense (var - lr_t * opt.weight_decay_rate * var) := by
  unfold AdamWeightDecay.resource_apply_dense AdamWeightDecay.decay_weights_op
  simp only [h, if_true]
  congr 1
  ring

/-- C5 witness: the theorem evaluated on the concrete optimizer with a
concrete stand-in for the Adam kernel. -/
theorem C5_decay_before_adam_witness :
    adam_example.resource_apply_dense (fun x => x - 1) "encoder.kernel" (1/10) 2 =
      (2 - (1/10) * adam_example.weight_decay_rate * 2) - 1 :=
  C5_decay_before_adam adam_example (fun x => x - 1) "encoder.kernel" (1/10) 2
    (by decide)

/-- C8 counterexample: the optimizer with exclusion pattern "bias" does not
decay a bias parameter, but its from_config-of-get_config reconstruction
does, because the pattern lists are absent from the config: the round-trip
does not preserve the per-parameter decay-eligibility decisions. -/
theorem C8_roundtrip_counterexample :
    (AdamWeightDecay.from_config adam_example.get_config).do_use_weight_decay
        "encoder.bias" ≠
      adam_example.do_use_weight_decay "encoder.bias" := by decide

/-- C8 amended: from_config-of-get_config preserves the Adam configuration
fields and weight_decay_rate but resets both pattern lists to None, so
decay-eligibility decisions that depended on them are not preserved. -/
theorem C8_roundtrip (opt : AdamWeightDecay) :
    AdamWeightDecay.from_config opt.get_config =
      ⟨opt.learning_rate, opt.beta_1, opt.beta_2, opt.epsilon, opt.amsgrad,
        opt.name, opt.weight_decay_rate, none, none⟩ := rfl

/-- C10: with weight_decay_rate 0 no parameter is decay-eligible, even one
matching the inclusion list, and the decay op leaves every variable
unchanged. -/
theorem C10_zero_rate_no_decay (opt : AdamWeightDecay)
    (h : opt.weight_decay_rate = 0) :
    (∀ param_name, opt.do_use_weight_decay param_name = false) ∧
    (∀ param_name, ∀ var lr : ℚ, opt.decay_weights_op param_name var lr = var) := by
  have h1 : ∀ p, opt.do_use_weight_decay p = false := by
    intro p
    unfold AdamWeightDecay.do_use_weight_decay
    rw [if_pos h]
  refine ⟨h1, fun p var lr => ?_⟩
  unfold AdamWeightDecay.decay_weights_op
  simp [h1 p]

/-- C10 witness: the zero-rate optimizer does not decay a name matching its
inclusion list. -/
theorem C10_zero_rate_no_decay_witness :
    adam_zero_rate_example.do_use_weight_decay "encoder.kernel" = false ∧
    adam_zero_rate_example.decay_weights_op "encoder.kernel" 2 (1/100) = 2 :=
  ⟨(C10_zero_rate_no_decay adam_zero_rate_example rfl).1 "encoder.kernel",
   (C10_zero_rate_no_decay adam_zero_rate_example rfl).2 "encoder.kernel" 2 (1/100)⟩

/-- C2 counterexample: with peak 1e-4, 100 total steps and 10 warm-up steps,
the warm-up ramp's value at step 10 is 1/9000 while the schedule returns the
decay value 1/10000 there, so the claimed continuity equation fails. -/
theorem C2_crossover_counterexample :
    (create_optimizer_warmup (1/10000) 100 10).warmup_learning_rate 10 ≠
      create_optimizer_lr_fn (1/10000) 100 10 10 := by
  norm_num [create_optimizer_lr_fn, create_optimizer_warmup, WarmUp.call,
    WarmUp.warmup_learning_rate, create_optimizer_decay_fn, PolynomialDecay.call,
    adjusted_init_lr, decayed_lr_at_crossover]

/-- C2 amended: at step = num_warmup_steps the schedule does return the
decay schedule's value, which equals the original peak init_lr; but the
warm-up ramp's value at that step is the adjusted rate
init_lr * total / (total - warmup), which differs from the decay value, so
the schedule jumps at the crossover instead of being continuous. -/
theorem C2_crossover_discontinuity (init_lr : ℚ) (n w : ℕ) (hw : w ≠ 0)
    (hwn : w < n) (hlr : init_lr ≠ 0) :
    create_optimizer_lr_fn init_lr n w w =
      create_optimizer_decay_fn init_lr n w w ∧
    create_optimizer_decay_fn init_lr n w w = init_lr ∧
    (create_optimizer_warmup init_lr n w).warmup_learning_rate w =
      init_lr * (n : ℚ) / ((n : ℚ) - (w : ℚ)) ∧
    (create_optimizer_warmup init_lr n w).warmup_learning_rate w ≠
      create_optimizer_decay_fn init_lr n w w := by
  have hn : 0 < n := lt_of_le_of_lt (Nat.zero_le w) hwn
  have hnQ : (n : ℚ) ≠ 0 := Nat.cast_ne_zero.mpr hn.ne'
  have hwQ : (w : ℚ) ≠ 0 := Nat.cast_ne_zero.mpr hw
  have hlt : (w : ℚ) < (n : ℚ) := by exact_mod_cast hwn
  have hsub : (n : ℚ) - (w : ℚ) ≠ 0 := sub_ne_zero.mpr (ne_of_gt hlt)
  have hqeq : (1 : ℚ) - (w : ℚ) / (n : ℚ) = ((n : ℚ) - (w : ℚ)) / (n : ℚ) := by
    field_simp
  have hq : (1 : ℚ) - (w : ℚ) / (n : ℚ) ≠ 0 := by
    rw [hqeq]
    exact div_ne_zero hsub hnQ
  have hfn : create_optimizer_lr_fn init_lr n w =
      (create_optimizer_warmup init_lr n w).call := by
    unfold create_optimizer_lr_fn
    rw [if_pos hw]
  have hdecayval : create_optimizer_decay_fn init_lr n w w = init_lr := by
    unfold create_optimizer_decay_fn
    rw [PolynomialDecay.call_linear, Nat.min_eq_left hwn.le, adjusted_init_lr_eq,
      div_mul_cancel₀ init_lr hq]
  have hramp : (create_optimizer_warmup init_lr n w).warmup_learning_rate w =
      init_lr * (n : ℚ) / ((n : ℚ) - (w : ℚ)) := by
    show adjusted_init_lr init_lr n w * ((w : ℚ) / (w : ℚ)) ^ (1 : ℕ) = _
    rw [div_self hwQ, one_pow, mul_one, adjusted_init_lr_eq, hqeq]
    rw [div_div_eq_mul_div]
  refine ⟨?_, hdecayval, hramp, ?_⟩
  · rw [hfn, WarmUp.call_of_le _ _ (le_refl w)]
    rfl
  · rw [hramp, hdecayval]
    intro hcontra
    rw [div_eq_iff hsub] at hcontra
    have hcancel : (n : ℚ) = (n : ℚ) - (w : ℚ) := mul_left_cancel₀ hlr hcontra
    have : (w : ℚ) = 0 := by linarith
    exact hwQ this

/-- C2 witness: the amended theorem evaluated at peak 1e-4, 100 total and
10 warm-up steps. -/
theorem C2_crossover_discontinuity_witness :
    create_optimizer_lr_fn (1/10000) 100 10 10 =
      create_optimizer_decay_fn (1/10000) 100 10 10 ∧
    create_optimizer_decay_fn (1/10000) 100 10 10 = 1/10000 ∧
    (create_optimizer_warmup (1/10000) 100 10).warmup_learning_rate 10 =
      (1/10000) * ((100 : ℕ) : ℚ) / (((100 : ℕ) : ℚ) - ((10 : ℕ) : ℚ)) ∧
    (create_optimizer_warmup (1/10000) 100 10).warmup_learning_rate 10 ≠
      create_optimizer_decay_fn (1/10000) 100 10 10 :=
  C2_crossover_discontinuity (1/10000) 100 10 (by decide) (by decide) (by norm_num)

/-- C3 counterexample: with warm-up 10, total 100 and peak 1e-4 the schedule
at step 5 returns 1/18000, not the claimed 5e-5 = 1/20000. -/
theorem C3_example_counterexample :
    create_optimizer_lr_fn (1/10000) 100 10 5 ≠ 1/20000 := by
  norm_num [create_optimizer_lr_fn, create_optimizer_warmup, WarmUp.call,
    WarmUp.warmup_learning_rate, create_optimizer_decay_fn, PolynomialDecay.call,
    adjusted_init_lr, decayed_lr_at_crossover]

/-- C3 amended: with warm-up 10, total 100 and peak 1e-4 the schedule
returns 1/18000 at step 5 (the ramp runs from 0 to the adjusted rate
1/9000, not to the peak), 1e-4 at step 10 and 0 at step 100. -/
theorem C3_example_values :
    create_optimizer_lr_fn (1/10000) 100 10 5 = 1/18000 ∧
    create_optimizer_lr_fn (1/10000) 100 10 10 = 1/10000 ∧
    create_optimizer_lr_fn (1/10000) 100 10 100 = 0 := by
  refine ⟨?_, ?_, ?_⟩ <;>
    norm_num [create_optimizer_lr_fn, create_optimizer_warmup, WarmUp.call,
      WarmUp.warmup_learning_rate, create_optimizer_decay_fn, PolynomialDecay.call,
      adjusted_init_lr, decayed_lr_at_crossover]

/-- C6: from the warm-up count on, the schedule built by create_optimizer is
monotonically non-increasing in the step and returns 0 at the final (total)
step. -/
theorem C6_decay_monotone (init_lr : ℚ) (n w : ℕ) (hw : w ≠ 0) (hwn : w < n)
    (hlr : 0 ≤ init_lr) :
    (∀ s₁ s₂ : ℕ, w ≤ s₁ → s₁ ≤ s₂ →
      create_optimizer_lr_fn init_lr n w s₂ ≤ create_optimizer_lr_fn init_lr n w s₁) ∧
    create_optimizer_lr_fn init_lr n w n = 0 := by
  have hn : 0 < n := lt_of_le_of_lt (Nat.zero_le w) hwn
  have hnQ : (n : ℚ) ≠ 0 := Nat.cast_ne_zero.mpr hn.ne'
  have hnpos : (0 : ℚ) < (n : ℚ) := by exact_mod_cast hn
  have hfn : create_optimizer_lr_fn init_lr n w =
      (create_optimizer_warmup init_lr n w).call := by
    unfold create_optimizer_lr_fn
    rw [if_pos hw]
  have hc : 0 ≤ adjusted_init_lr init_lr n w := by
    rw [adjusted_init_lr_eq]
    apply div_nonneg hlr
    have hlt1 : (w : ℚ) / (n : ℚ) < 1 := by
      rw [div_lt_one hnpos]
      exact_mod_cast hwn
    linarith
  have hdecay : ∀ s : ℕ, w ≤ s → create_optimizer_lr_fn init_lr n w s =
      adjusted_init_lr init_lr n w * (1 - ((min s n : ℕ) : ℚ) / (n : ℚ)) := by
    intro s hs
    rw [hfn, WarmUp.call_of_le _ _ hs]
    show create_optimizer_decay_fn init_lr n w s = _
    unfold create_optimizer_decay_fn
    rw [PolynomialDecay.call_linear]
  constructor
  · intro s₁ s₂ h1 h12
    rw [hdecay s₁ h1, hdecay s₂ (le_trans h1 h12)]
    have hmin : min s₁ n ≤ min s₂ n := min_le_min h12 (le_refl n)
    gcongr
  · rw [hdecay n hwn.le, Nat.min_self, div_self hnQ]
    ring

/-- C6 witness: the theorem evaluated at peak 1e-4, 100 total and 10
warm-up steps, with steps 20 and 50 in the decay phase. -/
theorem C6_decay_monotone_witness :
    create_optimizer_lr_fn (1/10000) 100 10 50 ≤
      create_optimizer_lr_fn (1/10000) 100 10 20 ∧
    create_optimizer_lr_fn (1/10000) 100 10 100 = 0 :=
  ⟨(C6_decay_monotone (1/10000) 100 10 (by decide) (by decide) (by norm_num)).1
      20 50 (by decide) (by decide),
   (C6_decay_monotone (1/10000) 100 10 (by decide) (by decide) (by norm_num)).2⟩

/-- C7 counterexample: with optimizer_type "adam" and warm-up steps equal to
total steps (both 10, nonzero), create_optimizer raises ZeroDivisionError
instead of returning an optimizer, so the adam branch is not raise-free. -/
theorem C7_adam_raises_counterexample :
    create_optimizer (1/10000) 10 10 "adam" (1/100) none none =
      .error .ZeroDivisionError := by
  norm_num [create_optimizer, decayed_lr_at_crossover, throw, throwThe,
    MonadExcept.throw, Functor.map, Except.map, bind, Except.bind, pure,
    Except.pure]

/-- C7 amended: create_optimizer raises NotImplementedError exactly when the
optimizer_type is not "adam"; with optimizer_type "adam" it returns the
AdamWeightDecay optimizer provided neither float division of the adam branch
divides by zero (num_train_steps nonzero and a nonzero crossover rate). -/
theorem C7_not_implemented_iff (init_lr : ℚ) (n w : ℕ) (optimizer_type : String)
    (rate : ℚ) (incl excl : Option (List String)) :
    (create_optimizer init_lr n w optimizer_type rate incl excl =
        .error .NotImplementedError ↔ optimizer_type ≠ "adam") ∧
    (optimizer_type = "adam" → (n : ℚ) ≠ 0 →
      decayed_lr_at_crossover init_lr n w ≠ 0 →
      create_optimizer init_lr n w optimizer_type rate incl excl =
        .ok ⟨create_optimizer_lr_fn init_lr n w, 9/10, 999/1000, 1/10000000,
          false, "AdamWeightDecay", rate, incl, excl⟩) := by
  rcases eq_or_ne optimizer_type "adam" with h | h
  · subst h
    constructor
    · simp only [ne_eq, not_true_eq_false, iff_false]
      intro habs
      rcases eq_or_ne ((n : ℚ)) 0 with hn | hn <;>
        rcases eq_or_ne (decayed_lr_at_crossover init_lr n w) 0 with hc | hc <;>
        simp [create_optimizer, hn, hc, throw, throwThe, MonadExcept.throw,
          bind, Except.bind, pure, Except.pure] at habs
    · intro _ hn hc
      simp [create_optimizer, hn, hc, throw, throwThe, MonadExcept.throw,
        bind, Except.bind, pure, Except.pure]
  · constructor
    · simp [create_optimizer, h, throw, throwThe, MonadExcept.throw,
        bind, Except.bind, pure, Except.pure]
    · intro habs
      exact absurd habs h

/-- C7 witness: the amended theorem evaluated at peak 1e-4, 100 total and
10 warm-up steps with optimizer_type "adam". -/
theorem C7_not_implemented_iff_witness :
    create_optimizer (1/10000) 100 10 "adam" (1/100) none none =
      .ok ⟨create_optimizer_lr_fn (1/10000) 100 10, 9/10, 999/1000, 1/10000000,
        false, "AdamWeightDecay", 1/100, none, none⟩ :=
  (C7_not_implemented_iff (1/10000) 100 10 "adam" (1/100) none none).2 rfl
    (by norm_num) (by norm_num [decayed_lr_at_crossover])

/-- C9 counterexample: warm-up and total step counts both 10 (nonzero) with
peak 1e-4: the crossover divisor init_lr * (1 - 10/10) at line 55 is 0, so
the construction divides by zero although neither step count is zero. -/
theorem C9_div_by_zero_counterexample :
    (10 : ℕ) ≠ 0 ∧ ¬ no_div_by_zero (1/10000) 10 10 := by
  refine ⟨by decide, ?_⟩
  norm_num [no_div_by_zero, schedule_divisors, decayed_lr_at_crossover]

/-- C9 amended: with nonzero warm-up and total step counts, a warm-up count
different from the total count and a nonzero peak rate, neither building the
schedule of create_optimizer nor evaluating it divides by zero. -/
theorem C9_no_div_by_zero (init_lr : ℚ) (n w : ℕ) (hn : n ≠ 0) (hw : w ≠ 0)
    (hwn : w ≠ n) (hlr : init_lr ≠ 0) :
    no_div_by_zero init_lr n w := by
  have hnQ : (n : ℚ) ≠ 0 := Nat.cast_ne_zero.mpr hn
  have hwQ : (w : ℚ) ≠ 0 := Nat.cast_ne_zero.mpr hw
  have hq : (1 : ℚ) - (w : ℚ) / (n : ℚ) ≠ 0 := by
    intro habs
    apply hwn
    have hdiv : (w : ℚ) / (n : ℚ) = 1 := by linarith
    rw [div_eq_iff hnQ, one_mul] at hdiv
    exact_mod_cast hdiv
  have hcross : decayed_lr_at_crossover init_lr n w ≠ 0 := by
    unfold decayed_lr_at_crossover
    rw [pow_one]
    exact mul_ne_zero hlr hq
  unfold no_div_by_zero schedule_divisors
  intro hmem
  rw [if_pos hw] at hmem
  simp only [List.mem_append, List.mem_cons, List.mem_singleton,
    List.not_mem_nil, or_false] at hmem
  rcases hmem with (h | h | h) | h
  · exact hnQ h.symm
  · exact hcross h.symm
  · exact hnQ h.symm
  · exact hwQ h.symm

/-- C9 witness: the amended theorem evaluated at peak 1e-4, 100 total and
10 warm-up steps. -/
theorem C9_no_div_by_zero_witness : no_div_by_zero (1/10000) 100 10 :=
  C9_no_div_by_zero (1/10000) 100 10 (by decide) (by decide) (by decide)
    (by norm_num)

end DLFrameworkBench
